import Mathlib

/-!
Verification of the cd-ripper release-identification and metadata-reconciliation
pipeline.  The Python sources under `src/` are shallowly embedded as executable
Lean definitions: Python strings become `List Char`, dictionaries become
structures with `Option` fields, and the filesystem becomes an explicit list of
paths.  Each theorem below settles one claim about the pipeline.
-/

namespace CDRipper

/-- Python strings are modelled as lists of characters. -/
abbrev Str := List Char

/-- Python `str.strip()`: drop leading and trailing whitespace. -/
def pyStrip (s : Str) : Str :=
  ((s.dropWhile Char.isWhitespace).reverse.dropWhile Char.isWhitespace).reverse

/-- Python `s.replace(a, b)` for single-character `a`, `b`. -/
def replaceChar (a b : Char) (s : Str) : Str :=
  s.map fun c => if c = a then b else c

/-- Python `s.replace(a, "")` for a single-character `a`. -/
def removeChar (a : Char) (s : Str) : Str :=
  s.filter fun c => c ≠ a

/-- Python `str.upper()` (ASCII case suffices for catalog numbers). -/
def upperStr (s : Str) : Str := s.map Char.toUpper

/-- `normalize_catalog_number` (src/src/core/rip_cd.py:98-106):
strip, remove spaces and hyphens, uppercase. -/
def normalize_catalog_number (catalog : Str) : Str :=
  if catalog = [] then []
  else upperStr (removeChar '-' (removeChar ' ' (pyStrip catalog)))

/-- `validate_catalog_format` (src/src/core/rip_cd.py:108-121). -/
def validate_catalog_format (catalog : Str) : Bool :=
  if catalog = [] then false
  else if catalog.length < 3 || 20 < catalog.length then false
  else catalog.any fun c => ('A' ≤ c && c ≤ 'Z') || ('0' ≤ c && c ≤ '9')

/-- Insert a separator character after the first `k` characters
(Python `f"{s[:k]}{sep}{s[k:]}"`, rip_cd.py:461-478). -/
def insertAt (sep : Char) (k : Nat) (s : Str) : Str :=
  s.take k ++ [sep] ++ s.drop k

/-- The raw, ordered variation list built by `search_musicbrainz_by_catalog`
(src/src/core/rip_cd.py:432-478) before de-duplication. -/
def search_variations (catalog : Str) : List Str :=
  let original := pyStrip catalog
  let normalized := normalize_catalog_number catalog
  let v1 := [original]
  let v2 := v1 ++ (if normalized ≠ original then [normalized] else [])
  let v3 := v2 ++
    (if original.contains ' ' then
      let withHyphens := replaceChar ' ' '-' original
      let withoutSpaces := removeChar ' ' original
      [withHyphens] ++
        (if withoutSpaces ∉ v2 ++ [withHyphens] then [withoutSpaces] else [])
    else [])
  let v4 := v3 ++ (if original.contains '-' then [replaceChar '-' ' ' original] else [])
  let synth := !original.contains ' ' && !original.contains '-' &&
      decide (6 ≤ normalized.length)
  let v5 := v4 ++
    (if synth then
      [insertAt '-' 3 normalized, insertAt '-' 4 normalized,
       insertAt '-' 5 normalized, insertAt '-' 6 normalized]
    else [])
  v5 ++
    (if synth then
      [insertAt ' ' 3 normalized, insertAt ' ' 4 normalized,
       insertAt ' ' 5 normalized, insertAt ' ' 6 normalized]
    else [])

/-- The de-duplication loop of `search_musicbrainz_by_catalog`
(src/src/core/rip_cd.py:480-486): keep first occurrences, drop empty strings. -/
def dedupKeep : List Str → List Str → List Str
  | [], _ => []
  | x :: xs, seen =>
    if x ≠ [] ∧ x ∉ seen then x :: dedupKeep xs (x :: seen)
    else dedupKeep xs seen

/-- `generateVariants`: the `unique_variations` list actually searched
(src/src/core/rip_cd.py:432-488). -/
def generate_variants (catalog : Str) : List Str :=
  dedupKeep (search_variations catalog) []

theorem mem_dedupKeep (a : Str) :
    ∀ (xs seen : List Str), a ∈ dedupKeep xs seen ↔ a ∈ xs ∧ a ≠ [] ∧ a ∉ seen := by
  intro xs
  induction xs with
  | nil => intro seen; simp [dedupKeep]
  | cons x xs ih =>
    intro seen
    by_cases hx : x ≠ [] ∧ x ∉ seen
    · obtain ⟨hx1, hx2⟩ := hx
      simp only [dedupKeep, if_pos (And.intro hx1 hx2), List.mem_cons, ih]
      constructor
      · rintro (rfl | ⟨hmem, hne, hseen⟩)
        · exact ⟨Or.inl rfl, hx1, hx2⟩
        · exact ⟨Or.inr hmem, hne, fun h => hseen (Or.inr h)⟩
      · rintro ⟨hmem | hmem, hne, hseen⟩
        · exact Or.inl hmem
        · by_cases hax : a = x
          · exact Or.inl hax
          · exact Or.inr ⟨hmem, hne, fun h => h.elim hax hseen⟩
    · simp only [dedupKeep, if_neg hx, List.mem_cons, ih]
      constructor
      · rintro ⟨hmem, hne, hseen⟩
        exact ⟨Or.inr hmem, hne, hseen⟩
      · rintro ⟨hmem | hmem, hne, hseen⟩
        · subst hmem; exact absurd ⟨hne, hseen⟩ hx
        · exact ⟨hmem, hne, hseen⟩

theorem nodup_dedupKeep : ∀ (xs seen : List Str), (dedupKeep xs seen).Nodup := by
  intro xs
  induction xs with
  | nil => intro seen; simp [dedupKeep]
  | cons x xs ih =>
    intro seen
    by_cases hx : x ≠ [] ∧ x ∉ seen
    · rw [dedupKeep, if_pos hx]
      refine List.nodup_cons.mpr ⟨?_, ih _⟩
      intro hmem
      exact ((mem_dedupKeep x xs (x :: seen)).mp hmem).2.2 (List.mem_cons_self x seen)
    · rw [dedupKeep, if_neg hx]
      exact ih _

theorem pyStrip_ne_nil_of_normalize (c : Str) (h : normalize_catalog_number c ≠ []) :
    pyStrip c ≠ [] := by
  intro hc
  apply h
  unfold normalize_catalog_number
  split
  · rfl
  · rw [hc]; rfl

theorem replaceChar_ne_nil (a b : Char) (s : Str) (h : s ≠ []) :
    replaceChar a b s ≠ [] := by
  simp [replaceChar, h]

theorem insertAt_ne_nil (sep : Char) (k : Nat) (s : Str) : insertAt sep k s ≠ [] := by
  simp [insertAt]

theorem search_variations_head (c : Str) :
    ∃ t, search_variations c = pyStrip c :: t := ⟨_, rfl⟩

theorem subset_search_variations (c : Str) :
    pyStrip c ∈ search_variations c ∧
    normalize_catalog_number c ∈ search_variations c := by
  constructor
  · simp [search_variations]
  · by_cases hno : normalize_catalog_number c = pyStrip c
    · rw [hno]; simp [search_variations]
    · simp [search_variations, hno]

theorem swaps_mem_search_variations (c : Str) :
    (' ' ∈ pyStrip c → replaceChar ' ' '-' (pyStrip c) ∈ search_variations c) ∧
    ('-' ∈ pyStrip c → replaceChar '-' ' ' (pyStrip c) ∈ search_variations c) := by
  constructor
  · intro hsp
    simp [search_variations, hsp]
  · intro hhy
    simp [search_variations, hhy]

theorem synth_mem_search_variations (c : Str)
    (hs : ' ' ∉ pyStrip c) (hh : '-' ∉ pyStrip c)
    (hl : 6 ≤ (normalize_catalog_number c).length) :
    ∀ k ∈ ([3, 4, 5, 6] : List Nat),
      insertAt '-' k (normalize_catalog_number c) ∈ search_variations c ∧
      insertAt ' ' k (normalize_catalog_number c) ∈ search_variations c := by
  intro k hk
  fin_cases hk <;>
    exact ⟨by simp [search_variations, hs, hh, hl], by simp [search_variations, hs, hh, hl]⟩

theorem mem_generate_variants (c a : Str) :
    a ∈ generate_variants c ↔ a ∈ search_variations c ∧ a ≠ [] := by
  unfold generate_variants
  rw [mem_dedupKeep]
  simp

theorem generate_variants_head (c : Str) (h : pyStrip c ≠ []) :
    (generate_variants c).head? = some (pyStrip c) := by
  obtain ⟨t, ht⟩ := search_variations_head c
  unfold generate_variants
  rw [ht]
  simp only [dedupKeep]
  rw [if_pos ⟨h, List.not_mem_nil _⟩]
  rfl

/-- The corrected variant-generation property at catalog string `c`: the
de-duplicated variant list starts with the stripped original, is duplicate
free, contains the normalized string, contains the space↔hyphen swaps of the
original when the corresponding separator occurs in it, and contains all eight
synthetic separator-inserted variants at positions 3–6 whenever the original
has neither space nor hyphen and the normalized form has length at least 6. -/
def VariantListSpec (c : Str) : Prop :=
  (generate_variants c).Nodup ∧
  (generate_variants c).head? = some (pyStrip c) ∧
  pyStrip c ∈ generate_variants c ∧
  normalize_catalog_number c ∈ generate_variants c ∧
  (' ' ∈ pyStrip c → replaceChar ' ' '-' (pyStrip c) ∈ generate_variants c) ∧
  ('-' ∈ pyStrip c → replaceChar '-' ' ' (pyStrip c) ∈ generate_variants c) ∧
  (' ' ∉ pyStrip c → '-' ∉ pyStrip c → 6 ≤ (normalize_catalog_number c).length →
    ∀ k ∈ ([3, 4, 5, 6] : List Nat),
      insertAt '-' k (normalize_catalog_number c) ∈ generate_variants c ∧
      insertAt ' ' k (normalize_catalog_number c) ∈ generate_variants c)

/-- C6 (amended): `normalize` strips surrounding whitespace, removes all
spaces and hyphens and uppercases, so `normalize "GEFD 24617" = "GEFD24617"`;
and for every raw catalog string whose normalized form is nonempty, the
generated variant list is duplicate-free, begins with the stripped original,
contains the normalized string and the hyphen↔space swaps of the original,
and contains the eight synthetic hyphen/space-inserted variants at positions
3 through 6 whenever the original contains neither space nor hyphen and the
normalized form is at least 6 characters long. -/
theorem catalog_variant_generation (c : Str)
    (h : normalize_catalog_number c ≠ []) :
    normalize_catalog_number "GEFD 24617".data = "GEFD24617".data ∧ VariantListSpec c := by
  have ho : pyStrip c ≠ [] := pyStrip_ne_nil_of_normalize c h
  refine ⟨by decide, nodup_dedupKeep _ _, generate_variants_head c ho, ?_, ?_, ?_, ?_, ?_⟩
  · exact (mem_generate_variants c _).mpr ⟨(subset_search_variations c).1, ho⟩
  · exact (mem_generate_variants c _).mpr ⟨(subset_search_variations c).2, h⟩
  · intro hsp
    exact (mem_generate_variants c _).mpr
      ⟨(swaps_mem_search_variations c).1 hsp, replaceChar_ne_nil _ _ _ ho⟩
  · intro hhy
    exact (mem_generate_variants c _).mpr
      ⟨(swaps_mem_search_variations c).2 hhy, replaceChar_ne_nil _ _ _ ho⟩
  · intro hs hh hl k hk
    obtain ⟨h1, h2⟩ := synth_mem_search_variations c hs hh hl k hk
    exact ⟨(mem_generate_variants c _).mpr ⟨h1, insertAt_ne_nil _ _ _⟩,
           (mem_generate_variants c _).mpr ⟨h2, insertAt_ne_nil _ _ _⟩⟩

/-- C6 witness: the amended property evaluated at the concrete catalog number
"GEFD-24617"; in particular its variant list includes "GEFD 24617" and
"GEFD24617" with no duplicates. -/
theorem catalog_variant_generation_witness :
    normalize_catalog_number "GEFD 24617".data = "GEFD24617".data ∧
      VariantListSpec "GEFD-24617".data :=
  catalog_variant_generation "GEFD-24617".data (by decide)

/-- C6 counterexample: as stated, the claim fails.  At raw catalog string ""
the generated variant list is empty, so it contains neither the original nor
the normalized string; and at raw = "ABC-" every one of the eight synthetic
position-3..6 variants is a member although the original contains a hyphen,
refuting the "exactly when" direction of the claim. -/
theorem catalog_variant_generation_counterexample :
    (generate_variants [] = [] ∧ ([] : Str) ∉ generate_variants [] ∧
      normalize_catalog_number [] ∉ generate_variants []) ∧
    ('-' ∈ pyStrip "ABC-".data ∧
      ∀ k ∈ ([3, 4, 5, 6] : List Nat),
        insertAt '-' k (normalize_catalog_number "ABC-".data) ∈
          generate_variants "ABC-".data ∧
        insertAt ' ' k (normalize_catalog_number "ABC-".data) ∈
          generate_variants "ABC-".data) := by
  decide

/-- Decimal digits of a natural number (Python `str(n)`). -/
def natStr (n : Nat) : Str := Nat.toDigits 10 n

/-- Python `f"{n:02d}"`: zero-pad to two digits. -/
def format02 (n : Nat) : Str := if n < 10 then '0' :: natStr n else natStr n

/-- A track of a detailed MusicBrainz release record as consumed by
`search_musicbrainz_enhanced` (src/src/core/rip_cd.py:668-698): the recording
title and length, and the per-track artist-credit string (the joinphrase
concatenation of lines 673-690, carried here as one precomputed string since no
claim depends on how it is joined).  `none` models a missing JSON key. -/
structure MbTrack where
  title : Option Str
  length : Option Nat
  artist : Option Str
deriving DecidableEq

/-- A detailed release record: external identifier, title, album-level artist
(name of the first artist-credit entry, if any), the `medium-list` with each
medium's `track-list`, and the release date. -/
structure ReleaseDetail where
  id : Nat
  title : Option Str
  artist : Option Str
  mediumList : List (List MbTrack)
  date : Option Str
deriving DecidableEq

/-- Total track count of a detailed release:
`sum(len(medium.get('track-list', [])) for medium in ...)`
(src/src/core/rip_cd.py:532-533 and 648). -/
def totalTracks (r : ReleaseDetail) : Nat :=
  (r.mediumList.map List.length).sum

/-- The track-count gate of `search_musicbrainz_by_catalog`
(src/src/core/rip_cd.py:519-543).  `fetched` holds, for each unique release
found by the catalog variations, the result of the detailed fetch (`none` when
the per-candidate fetch raised and was skipped); only candidates whose total
track count equals the local `track_count` are retained. -/
def matching_releases (fetched : List (Option ReleaseDetail)) (trackCount : Nat) :
    List ReleaseDetail :=
  (fetched.filterMap id).filter fun r => totalTracks r = trackCount

/-- The selection step of `search_musicbrainz_by_catalog`
(src/src/core/rip_cd.py:545-580): returns `none` when no candidate passes the
gate; otherwise the release at index `choice` of the matching list (0 for the
automatic single-match case and for the "press Enter for first" default; any
in-range index for an interactive pick). -/
def search_by_catalog_select (fetched : List (Option ReleaseDetail))
    (trackCount choice : Nat) : Option ReleaseDetail :=
  (matching_releases fetched trackCount).get? choice

/-- The candidate loop of `search_musicbrainz_enhanced`
(src/src/core/rip_cd.py:636-658): skip candidates whose detail fetch failed or
whose `medium-list` is empty; return the first candidate whose track count
matches exactly; otherwise remember the first valid candidate as fallback. -/
def best_release_loop (trackCount : Nat) :
    List (Option ReleaseDetail) → Option ReleaseDetail → Option ReleaseDetail
  | [], best => best
  | none :: rest, best => best_release_loop trackCount rest best
  | some r :: rest, best =>
    if r.mediumList ≠ [] then
      if totalTracks r = trackCount then some r
      else
        match best with
        | none => best_release_loop trackCount rest (some r)
        | some b => best_release_loop trackCount rest (some b)
    else best_release_loop trackCount rest best

/-- `best_release` as computed by `search_musicbrainz_enhanced`
(src/src/core/rip_cd.py:637-661). -/
def best_release (cands : List (Option ReleaseDetail)) (trackCount : Nat) :
    Option ReleaseDetail :=
  best_release_loop trackCount cands none

/-- The first candidate whose detail fetch succeeded and whose medium list is
nonempty: the candidate kept as best-effort fallback. -/
def first_valid (cands : List (Option ReleaseDetail)) : Option ReleaseDetail :=
  (cands.filterMap id).find? fun r => !r.mediumList.isEmpty

/-- One entry of the `tracks` list built by `search_musicbrainz_enhanced`
(src/src/core/rip_cd.py:692-698). -/
structure ExtractedTrack where
  title : Str
  length : Option Nat
  disc_number : Nat
  track_number : Nat
  artist : Option Str
deriving DecidableEq

/-- Track extraction for one medium: `enumerate(disc_tracks, 1)` with the
default title `f"Track {track_num:02d}"` (src/src/core/rip_cd.py:670-698). -/
def extract_disc (discNum : Nat) (tracks : List MbTrack) : List ExtractedTrack :=
  tracks.enum.map fun it =>
    { title := (it.2.title).getD ("Track ".data ++ format02 (it.1 + 1))
      length := it.2.length
      disc_number := discNum
      track_number := it.1 + 1
      artist := it.2.artist }

/-- The full `tracks` list: `enumerate(medium_list, 1)` over discs
(src/src/core/rip_cd.py:664-698). -/
def extract_all (r : ReleaseDetail) : List ExtractedTrack :=
  (r.mediumList.enum.map fun im => extract_disc (im.1 + 1) im.2).flatten

/-- The dictionary returned by `search_musicbrainz_enhanced`
(src/src/core/rip_cd.py:707-715). -/
structure EnhancedResult where
  artist : Str
  album : Str
  date : Str
  mbid : Nat
  tracks : List ExtractedTrack
  disc_count : Nat
deriving DecidableEq

/-- The artist/album branch of `search_musicbrainz_enhanced` after the release
lists have been fetched (src/src/core/rip_cd.py:636-715): select
`best_release`, then extract tracks, disc count and artist name, falling back
to the caller-supplied artist/album strings where the record lacks them. -/
def search_musicbrainz_enhanced_select (artist album : Str)
    (cands : List (Option ReleaseDetail)) (trackCount : Nat) :
    Option EnhancedResult :=
  match best_release cands trackCount with
  | none => none
  | some r =>
    some { artist := (r.artist).getD artist
           album := (r.title).getD album
           date := (r.date).getD "Unknown".data
           mbid := r.id
           tracks := extract_all r
           disc_count := r.mediumList.length }

theorem matching_releases_count (fetched : List (Option ReleaseDetail))
    (trackCount : Nat) :
    ∀ r ∈ matching_releases fetched trackCount, totalTracks r = trackCount := by
  intro r hr
  unfold matching_releases at hr
  simpa using (List.mem_filter.mp hr).2

theorem brl_skip (trackCount : Nat) (x : ReleaseDetail)
    (rest : List (Option ReleaseDetail)) (best : Option ReleaseDetail)
    (hml : x.mediumList = []) :
    best_release_loop trackCount (some x :: rest) best =
      best_release_loop trackCount rest best := by
  simp [best_release_loop, hml]

theorem brl_exact (trackCount : Nat) (x : ReleaseDetail)
    (rest : List (Option ReleaseDetail)) (best : Option ReleaseDetail)
    (hml : x.mediumList ≠ []) (htc : totalTracks x = trackCount) :
    best_release_loop trackCount (some x :: rest) best = some x := by
  simp [best_release_loop, hml, htc]

theorem brl_fallback (trackCount : Nat) (x : ReleaseDetail)
    (rest : List (Option ReleaseDetail))
    (hml : x.mediumList ≠ []) (htc : totalTracks x ≠ trackCount) :
    best_release_loop trackCount (some x :: rest) none =
      best_release_loop trackCount rest (some x) := by
  simp [best_release_loop, hml, htc]

theorem brl_keep (trackCount : Nat) (x b : ReleaseDetail)
    (rest : List (Option ReleaseDetail))
    (hml : x.mediumList ≠ []) (htc : totalTracks x ≠ trackCount) :
    best_release_loop trackCount (some x :: rest) (some b) =
      best_release_loop trackCount rest (some b) := by
  simp [best_release_loop, hml, htc]

theorem best_release_loop_cases (trackCount : Nat) :
    ∀ (cands : List (Option ReleaseDetail)) (best : Option ReleaseDetail)
      (r : ReleaseDetail), best_release_loop trackCount cands best = some r →
      totalTracks r = trackCount ∨ best = some r ∨
        (best = none ∧ first_valid cands = some r ∧ totalTracks r ≠ trackCount) := by
  intro cands
  induction cands with
  | nil =>
    intro best r h
    exact Or.inr (Or.inl h)
  | cons c rest ih =>
    intro best r h
    match c with
    | none =>
      rw [show best_release_loop trackCount (none :: rest) best =
            best_release_loop trackCount rest best from by
          simp [best_release_loop]] at h
      rcases ih best r h with h1 | h2 | ⟨hb, hf, hne⟩
      · exact Or.inl h1
      · exact Or.inr (Or.inl h2)
      · exact Or.inr (Or.inr ⟨hb, by simpa [first_valid] using hf, hne⟩)
    | some x =>
      by_cases hml : x.mediumList = []
      · rw [brl_skip trackCount x rest best hml] at h
        rcases ih best r h with h1 | h2 | ⟨hb, hf, hne⟩
        · exact Or.inl h1
        · exact Or.inr (Or.inl h2)
        · refine Or.inr (Or.inr ⟨hb, ?_, hne⟩)
          simpa [first_valid, hml] using hf
      · by_cases htc : totalTracks x = trackCount
        · rw [brl_exact trackCount x rest best hml htc] at h
          cases h
          exact Or.inl htc
        · match hbest : best with
          | none =>
            rw [brl_fallback trackCount x rest hml htc] at h
            rcases ih (some x) r h with h1 | h2 | ⟨hb, _, _⟩
            · exact Or.inl h1
            · cases h2
              refine Or.inr (Or.inr ⟨rfl, ?_, htc⟩)
              simp [first_valid, hml]
            · exact absurd hb (by simp)
          | some b =>
            rw [brl_keep trackCount x b rest hml htc] at h
            rcases ih (some b) r h with h1 | h2 | ⟨hb, _, _⟩
            · exact Or.inl h1
            · exact Or.inr (Or.inl h2)
            · exact absurd hb (by simp)

theorem best_release_exact_or_first_valid
    (cands : List (Option ReleaseDetail)) (trackCount : Nat) (r : ReleaseDetail)
    (h : best_release cands trackCount = some r) :
    totalTracks r = trackCount ∨
      (first_valid cands = some r ∧ totalTracks r ≠ trackCount) := by
  rcases best_release_loop_cases trackCount cands none r h with h1 | h2 | ⟨_, hf, hne⟩
  · exact Or.inl h1
  · exact absurd h2 (by simp)
  · exact Or.inr ⟨hf, hne⟩

theorem length_extract_disc (dn : Nat) (ts : List MbTrack) :
    (extract_disc dn ts).length = ts.length := by
  simp [extract_disc]

theorem sum_enumFrom_extract (l : List (List MbTrack)) :
    ∀ n : Nat,
      ((List.enumFrom n l).map
          (List.length ∘ fun im => extract_disc (im.1 + 1) im.2)).sum
        = (l.map List.length).sum := by
  induction l with
  | nil => intro n; rfl
  | cons d rest ih =>
    intro n
    simp only [List.enumFrom, List.map_cons, List.sum_cons, Function.comp_apply,
      length_extract_disc, ih (n + 1)]

theorem extract_all_length (r : ReleaseDetail) :
    (extract_all r).length = totalTracks r := by
  unfold extract_all totalTracks
  rw [List.length_flatten, List.map_map, List.enum]
  exact sum_enumFrom_extract r.mediumList 0

/-- Sample track used by the concrete search scenarios below. -/
def sampleTrack : MbTrack :=
  { title := some "T".data, length := none, artist := none }

/-- A sole candidate release with 11 tracks on one disc. -/
def release11 : ReleaseDetail :=
  { id := 8, title := some "A".data, artist := none
    mediumList := [List.replicate 11 sampleTrack], date := none }

/-- A candidate release with 12 tracks on one disc. -/
def release12 : ReleaseDetail :=
  { id := 7, title := some "A".data, artist := some "B".data
    mediumList := [List.replicate 12 sampleTrack], date := none }

/-- C1 (amended): the catalog-number search never accepts a candidate whose
total track count differs from the expected count — its gate is strict, for
the automatic single-candidate path and for every interactive pick alike; the
artist/album search prefers the first exact track-count match but, when no
fetched candidate matches exactly, auto-accepts the first valid candidate
(detail fetch succeeded, nonempty medium list) as an explicitly degraded
best-effort fallback. -/
theorem track_count_gate (fetched cands : List (Option ReleaseDetail))
    (trackCount choice : Nat) :
    (∀ r, search_by_catalog_select fetched trackCount choice = some r →
        totalTracks r = trackCount) ∧
    (∀ r, best_release cands trackCount = some r →
        totalTracks r = trackCount ∨
          (first_valid cands = some r ∧ totalTracks r ≠ trackCount)) := by
  constructor
  · intro r h
    exact matching_releases_count fetched trackCount r (List.get?_mem h)
  · intro r h
    exact best_release_exact_or_first_valid cands trackCount r h

/-- C1 witness: with a 12-track and an 11-track candidate and expected count
12, the catalog search can only return a 12-track release, and the artist/album
search returns the exact 12-track match. -/
theorem track_count_gate_witness :
    (∀ r, search_by_catalog_select [some release12, some release11] 12 0 = some r →
        totalTracks r = 12) ∧
    (∀ r, best_release [some release12, some release11] 12 = some r →
        totalTracks r = 12 ∨
          (first_valid [some release12, some release11] = some r ∧
            totalTracks r ≠ 12)) :=
  track_count_gate [some release12, some release11] [some release12, some release11] 12 0

/-- C1 counterexample: with expected track count 12 and a sole artist/album
candidate of 11 tracks, `search_musicbrainz_enhanced` auto-accepts the
mismatching candidate as its best-effort fallback and returns it as the chosen
release, so the claim's "candidates with 11 or 13 tracks are never
auto-accepted even when they are the only result" is false for the
artist/album search. -/
theorem track_count_gate_counterexample :
    best_release [some release11] 12 = some release11 ∧
    totalTracks release11 = 11 ∧
    search_musicbrainz_enhanced_select "X".data "A".data [some release11] 12 =
      some { artist := "X".data, album := "A".data, date := "Unknown".data
             mbid := 8, tracks := extract_all release11, disc_count := 1 } := by
  refine ⟨by decide, by decide, ?_⟩
  rw [show search_musicbrainz_enhanced_select "X".data "A".data [some release11] 12
        = match best_release [some release11] 12 with
          | none => none
          | some r =>
            some { artist := (r.artist).getD "X".data
                   album := (r.title).getD "A".data
                   date := (r.date).getD "Unknown".data
                   mbid := r.id
                   tracks := extract_all r
                   disc_count := r.mediumList.length } from rfl]
  rw [show best_release [some release11] 12 = some release11 from by decide]
  rfl

/-- C5: the value returned by the artist/album search distinguishes the
degraded best-effort fallback from an exact track-count match: the embedded
track list of the returned record has length equal to the expected track count
exactly when the accepted candidate's total track count matched, so the caller
can tell "exact" from "fallback" results by comparing the returned track list
length with its expected count; moreover a non-exact accepted candidate is
always the first valid candidate (the fallback). -/
theorem enhanced_result_distinguishes_fallback
    (artist album : Str) (cands : List (Option ReleaseDetail)) (trackCount : Nat)
    (v : EnhancedResult) (r : ReleaseDetail)
    (hbr : best_release cands trackCount = some r)
    (hv : search_musicbrainz_enhanced_select artist album cands trackCount = some v) :
    (v.tracks.length = trackCount ↔ totalTracks r = trackCount) ∧
    (totalTracks r ≠ trackCount → first_valid cands = some r) := by
  have hv' : v.tracks = extract_all r := by
    unfold search_musicbrainz_enhanced_select at hv
    rw [hbr] at hv
    cases hv
    rfl
  constructor
  · rw [hv', extract_all_length]
  · intro hne
    rcases best_release_exact_or_first_valid cands trackCount r hbr with h1 | ⟨h2, _⟩
    · exact absurd h1 hne
    · exact h2

/-- C5 witness: the degraded sole-candidate scenario of expected count 12 with
an 11-track candidate, where the returned record's track list length (11)
differs from the expected count, revealing the fallback. -/
theorem enhanced_result_distinguishes_fallback_witness :
    (((extract_all release11).length = 12) ↔ totalTracks release11 = 12) ∧
    (totalTracks release11 ≠ 12 → first_valid [some release11] = some release11) :=
  enhanced_result_distinguishes_fallback "X".data "A".data [some release11] 12
    { artist := "X".data, album := "A".data, date := "Unknown".data
      mbid := 8, tracks := extract_all release11, disc_count := 1 }
    release11 (by decide)
    (by
      rw [show search_musicbrainz_enhanced_select "X".data "A".data [some release11] 12
            = match best_release [some release11] 12 with
              | none => none
              | some r =>
                some { artist := (r.artist).getD "X".data
                       album := (r.title).getD "A".data
                       date := (r.date).getD "Unknown".data
                       mbid := r.id
                       tracks := extract_all r
                       disc_count := r.mediumList.length } from rfl]
      rw [show best_release [some release11] 12 = some release11 from by decide]
      rfl)

/-- Python `s.lower()` (ASCII case suffices here). -/
def lowerStr (s : Str) : Str := s.map Char.toLower

/-- Python `''.join(name.lower().split())` (src/src/core/rip_cd.py:88-89):
lowercase and drop all whitespace. -/
def squashName (s : Str) : Str :=
  (lowerStr s).filter fun c => !c.isWhitespace

/-- `is_same_artist_different_language` (src/src/core/rip_cd.py:82-96): true
only when the two names agree up to case and whitespace. -/
def is_same_artist_different_language (name1 name2 : Str) : Bool :=
  squashName name1 = squashName name2

/-- The user-entered metadata fields read by the artist-choice block of
`rip_cd` (src/src/core/rip_cd.py:327-376 and 1118-1149). -/
structure UserMeta where
  artist : Str
  album : Str
  album_artist : Str
  album_type : Str
deriving DecidableEq

/-- The fields of `metadata` after `metadata.update(mb_metadata)` that the
claims inspect. -/
structure MergedMeta where
  artist : Str
  album_artist : Str
  album : Str
  tracks : List ExtractedTrack
deriving DecidableEq

/-- The artist-name handling block of `rip_cd`
(src/src/core/rip_cd.py:1118-1149).  For soundtracks the artist and
album_artist of the MusicBrainz metadata are overwritten with
"Various Artists" before the dict update; otherwise, when the user-entered and
resolved names differ beyond case/whitespace, the interactive choice
(`userPicksMb` models answering "2") either adopts the resolved artist (the
update leaves `album_artist` at its user-entered value, since the enhanced
search result carries no `album_artist` key) or forces both fields back to the
user-entered artist. -/
def apply_artist_choice (user : UserMeta) (mb : EnhancedResult)
    (userPicksMb : Bool) : MergedMeta :=
  let originalArtist := user.artist
  let mbArtist := mb.artist
  if user.album_type = "soundtrack".data then
    { artist := "Various Artists".data, album_artist := "Various Artists".data
      album := mb.album, tracks := mb.tracks }
  else if lowerStr originalArtist ≠ lowerStr mbArtist ∧
      ¬ is_same_artist_different_language originalArtist mbArtist then
    if userPicksMb then
      { artist := mbArtist, album_artist := user.album_artist
        album := mb.album, tracks := mb.tracks }
    else
      { artist := originalArtist, album_artist := originalArtist
        album := mb.album, tracks := mb.tracks }
  else
    { artist := mbArtist, album_artist := user.album_artist
      album := mb.album, tracks := mb.tracks }

/-- C8: for every album with albumType = soundtrack, the canonical artist and
album_artist are both forced to "Various Artists" regardless of the artist the
record resolved and regardless of the interactive choice, while the record's
per-track data is carried over unchanged. -/
theorem soundtrack_forces_various_artists (user : UserMeta)
    (mb : EnhancedResult) (choice : Bool)
    (h : user.album_type = "soundtrack".data) :
    (apply_artist_choice user mb choice).artist = "Various Artists".data ∧
    (apply_artist_choice user mb choice).album_artist = "Various Artists".data ∧
    (apply_artist_choice user mb choice).tracks = mb.tracks := by
  unfold apply_artist_choice
  rw [if_pos h]
  exact ⟨rfl, rfl, rfl⟩

/-- The John Williams soundtrack scenario of the specification. -/
def johnWilliamsResult : EnhancedResult :=
  { artist := "John Williams".data, album := "S".data, date := "1999".data
    mbid := 3, tracks := extract_all release12, disc_count := 1 }

/-- C8 witness: a soundtrack whose catalog record resolved the single artist
"John Williams" still yields "Various Artists" for both fields, with the
record's track list kept. -/
theorem soundtrack_forces_various_artists_witness :
    (apply_artist_choice
        { artist := "John Williams".data, album := "S".data
          album_artist := "John Williams".data, album_type := "soundtrack".data }
        johnWilliamsResult true).artist = "Various Artists".data ∧
    (apply_artist_choice
        { artist := "John Williams".data, album := "S".data
          album_artist := "John Williams".data, album_type := "soundtrack".data }
        johnWilliamsResult true).album_artist = "Various Artists".data ∧
    (apply_artist_choice
        { artist := "John Williams".data, album := "S".data
          album_artist := "John Williams".data, album_type := "soundtrack".data }
        johnWilliamsResult true).tracks = johnWilliamsResult.tracks :=
  soundtrack_forces_various_artists
    { artist := "John Williams".data, album := "S".data
      album_artist := "John Williams".data, album_type := "soundtrack".data }
    johnWilliamsResult true rfl

/-- A filesystem path, as its list of name segments. -/
abbrev FsPath := List Str

/-- The metadata fields read by `reorganize_album_directory`. -/
structure ReorgMeta where
  album : Str
  artist : Str
  album_artist : Str
  album_type : Option Str
deriving DecidableEq

/-- Target-directory computation of `reorganize_album_directory`
(src/src/core/rip_cd.py:769-780): segment names are sanitized with
`.replace('/', '_')`; soundtracks go under "Soundtracks", everything else
under the resolved `artist` field. -/
def reorganize_target (outputDir : FsPath) (m : ReorgMeta) : FsPath :=
  let safeAlbum := replaceChar '/' '_' m.album
  if m.album_type = some "soundtrack".data then
    outputDir ++ ["Soundtracks".data, safeAlbum]
  else
    outputDir ++ [replaceChar '/' '_' m.artist, safeAlbum]

/-- C9 (amended): the target directory is {root}/Soundtracks/{album} when
albumType = soundtrack and {root}/{artist}/{album} otherwise — the code files
under the resolved `artist` field, not `album_artist` — and the name
sanitization substitutes only the path-separator character '/' (with '_'),
preserving the segment length and every non-separator character. -/
theorem reorganize_target_spec (outputDir : FsPath) (m : ReorgMeta) (s : Str) :
    (m.album_type = some "soundtrack".data →
      reorganize_target outputDir m =
        outputDir ++ ["Soundtracks".data, replaceChar '/' '_' m.album]) ∧
    (m.album_type ≠ some "soundtrack".data →
      reorganize_target outputDir m =
        outputDir ++ [replaceChar '/' '_' m.artist, replaceChar '/' '_' m.album]) ∧
    (replaceChar '/' '_' s).length = s.length ∧
    (∀ i (hi : i < s.length) (hi2 : i < (replaceChar '/' '_' s).length),
      (replaceChar '/' '_' s).get ⟨i, hi2⟩ =
        if s.get ⟨i, hi⟩ = '/' then '_' else s.get ⟨i, hi⟩) := by
  refine ⟨?_, ?_, ?_, ?_⟩
  · intro h
    unfold reorganize_target
    rw [if_pos h]
  · intro h
    unfold reorganize_target
    rw [if_neg h]
  · simp [replaceChar]
  · intro i hi hi2
    simp [replaceChar]

/-- The AC/DC scenario: resolved artist "AC/DC", a differing album_artist, a
regular album. -/
def acdcMeta : ReorgMeta :=
  { album := "Back In Black".data, artist := "AC/DC".data
    album_artist := "Other".data, album_type := some "regular".data }

/-- C9 witness: for the AC/DC metadata the target path substitutes the slash
only, giving the directory "AC_DC" directly under the output root. -/
theorem reorganize_target_spec_witness :
    (acdcMeta.album_type = some "soundtrack".data →
      reorganize_target [] acdcMeta =
        [] ++ ["Soundtracks".data, replaceChar '/' '_' acdcMeta.album]) ∧
    (acdcMeta.album_type ≠ some "soundtrack".data →
      reorganize_target [] acdcMeta =
        [] ++ [replaceChar '/' '_' acdcMeta.artist,
               replaceChar '/' '_' acdcMeta.album]) ∧
    (replaceChar '/' '_' "AC/DC".data).length = "AC/DC".data.length ∧
    (∀ i (hi : i < "AC/DC".data.length)
        (hi2 : i < (replaceChar '/' '_' "AC/DC".data).length),
      (replaceChar '/' '_' "AC/DC".data).get ⟨i, hi2⟩ =
        if "AC/DC".data.get ⟨i, hi⟩ = '/' then '_'
        else "AC/DC".data.get ⟨i, hi⟩) :=
  reorganize_target_spec [] acdcMeta "AC/DC".data

/-- C9 counterexample: the non-soundtrack target directory is built from the
resolved `artist` field, not from `album_artist`: for artist "AC/DC" with
album_artist "Other" the album lands in "AC_DC", not in "Other", refuting the
claim's "{root}/{album_artist}/{album}". -/
theorem reorganize_target_counterexample :
    reorganize_target [] acdcMeta = ["AC_DC".data, "Back In Black".data] ∧
    acdcMeta.album_artist = "Other".data ∧
    ["AC_DC".data, "Back In Black".data] ≠
      [acdcMeta.album_artist, "Back In Black".data] := by
  refine ⟨?_, by decide, by decide⟩
  decide

/-- Immediate directory entries of `p` (the model of `p.iterdir()`) over an
explicit list of existing filesystem paths. -/
def childrenOf (fs : List FsPath) (p : FsPath) : List FsPath :=
  fs.filter fun e => decide (e.length = p.length + 1) && decide (e.take p.length = p)

/-- The artist-directory phase of `cleanup_empty_directories`
(src/src/core/rip_cd.py:829-841): remove the artist directory only when it
exists, is not the output root, and has no entries. -/
def cleanup_artist_phase (outputDir : FsPath) (fs : List FsPath)
    (artistDir : FsPath) : List FsPath :=
  if artistDir ∈ fs ∧ artistDir ≠ outputDir then
    if childrenOf fs artistDir = [] then fs.erase artistDir else fs
  else fs

/-- `cleanup_empty_directories` (src/src/core/rip_cd.py:810-844): remove the
album directory only when it exists and has no entries; when it still has
entries, return early without touching the artist directory; then apply the
artist-directory phase. -/
def cleanup_empty_directories (outputDir : FsPath) (fs : List FsPath)
    (artistDir albumDir : FsPath) : List FsPath :=
  if albumDir ∈ fs then
    if childrenOf fs albumDir = [] then
      cleanup_artist_phase outputDir (fs.erase albumDir) artistDir
    else fs
  else cleanup_artist_phase outputDir fs artistDir

theorem cleanup_artist_phase_removes (outputDir : FsPath) (fs : List FsPath)
    (artistDir p : FsPath) (hp : p ∈ fs)
    (hgone : p ∉ cleanup_artist_phase outputDir fs artistDir) :
    p = artistDir ∧ artistDir ≠ outputDir ∧ childrenOf fs artistDir = [] := by
  unfold cleanup_artist_phase at hgone
  by_cases hg : artistDir ∈ fs ∧ artistDir ≠ outputDir
  · rw [if_pos hg] at hgone
    by_cases hc : childrenOf fs artistDir = []
    · rw [if_pos hc] at hgone
      by_cases hpa : p = artistDir
      · exact ⟨hpa, hg.2, hc⟩
      · exact absurd ((List.mem_erase_of_ne hpa).mpr hp) hgone
    · rw [if_neg hc] at hgone
      exact absurd hp hgone
  · rw [if_neg hg] at hgone
    exact absurd hp hgone

/-- C10: the post-move directory cleanup removes only directories that are
empty at the moment of removal and never the collection output root: whenever
a path present before the cleanup is gone afterwards, it is the album or the
artist directory, it had no remaining entries when removed (the album
directory in the original state, the artist directory after the album
directory's removal), and it is not the output root.  The hypothesis
`albumDir ≠ outputDir` holds at the only call site
(src/src/core/rip_cd.py:802), which passes an album directory strictly below
the output root. -/
theorem cleanup_removes_only_empty_nonroot (outputDir : FsPath)
    (fs : List FsPath) (artistDir albumDir p : FsPath)
    (hroot : albumDir ≠ outputDir) (hp : p ∈ fs)
    (hgone : p ∉ cleanup_empty_directories outputDir fs artistDir albumDir) :
    p ≠ outputDir ∧
      ((p = albumDir ∧ childrenOf fs albumDir = []) ∨
       (p = artistDir ∧ childrenOf (fs.erase albumDir) artistDir = [])) := by
  unfold cleanup_empty_directories at hgone
  by_cases hb : albumDir ∈ fs
  · rw [if_pos hb] at hgone
    by_cases hc : childrenOf fs albumDir = []
    · rw [if_pos hc] at hgone
      by_cases hpb : p = albumDir
      · exact ⟨hpb ▸ hroot, Or.inl ⟨hpb, hc⟩⟩
      · have hp' : p ∈ fs.erase albumDir := (List.mem_erase_of_ne hpb).mpr hp
        obtain ⟨hpa, hne, hch⟩ :=
          cleanup_artist_phase_removes outputDir (fs.erase albumDir) artistDir p hp' hgone
        exact ⟨hpa ▸ hne, Or.inr ⟨hpa, hch⟩⟩
    · rw [if_neg hc] at hgone
      exact absurd hp hgone
  · rw [if_neg hb] at hgone
    obtain ⟨hpa, hne, hch⟩ :=
      cleanup_artist_phase_removes outputDir fs artistDir p hp hgone
    rw [List.erase_of_not_mem hb]
    exact ⟨hpa ▸ hne, Or.inr ⟨hpa, hch⟩⟩

/-- C10 witness: output root "output", artist directory "output/A", album
directory "output/A/B" with no entries: the cleanup removes the album
directory, which was empty and is not the root. -/
theorem cleanup_removes_only_empty_nonroot_witness :
    ["output".data, "A".data, "B".data] ≠ (["output".data] : FsPath) ∧
    (["output".data, "A".data, "B".data] : FsPath) ∈
      ([["output".data], ["output".data, "A".data],
        ["output".data, "A".data, "B".data]] : List FsPath) ∧
    (["output".data, "A".data, "B".data] : FsPath) ∉
      cleanup_empty_directories ["output".data]
        [["output".data], ["output".data, "A".data],
         ["output".data, "A".data, "B".data]]
        ["output".data, "A".data] ["output".data, "A".data, "B".data] ∧
    (["output".data, "A".data, "B".data] ≠ (["output".data] : FsPath) ∧
      ((["output".data, "A".data, "B".data] = (["output".data, "A".data, "B".data] : FsPath) ∧
        childrenOf [["output".data], ["output".data, "A".data],
          ["output".data, "A".data, "B".data]] ["output".data, "A".data, "B".data] = []) ∨
       (["output".data, "A".data, "B".data] = (["output".data, "A".data] : FsPath) ∧
        childrenOf ([["output".data], ["output".data, "A".data],
            ["output".data, "A".data, "B".data]].erase
            ["output".data, "A".data, "B".data]) ["output".data, "A".data] = []))) :=
  ⟨by decide, by decide, by decide,
    cleanup_removes_only_empty_nonroot ["output".data]
      [["output".data], ["output".data, "A".data],
       ["output".data, "A".data, "B".data]]
      ["output".data, "A".data] ["output".data, "A".data, "B".data]
      ["output".data, "A".data, "B".data]
      (by decide) (by decide) (by decide)⟩

/-- Python truthiness of an optional string value (a missing key or an empty
string is falsy). -/
def truthyS : Option Str → Bool
  | none => false
  | some s => !s.isEmpty

/-- Python truthiness of an optional integer value (a missing key or 0 is
falsy). -/
def truthyN : Option Nat → Bool
  | none => false
  | some n => n != 0

/-- Classification of a TRACKNUMBER value by `analyze_track_format`
(src/src/tools/track_normalizer.py:46-62). -/
inductive TrackFormat where
  | missing
  | discTrack (disc track : Nat)
  | simple (track : Nat)
  | invalid
deriving DecidableEq

/-- One or more decimal digits (the regex `\d+`). -/
def isDigits (s : Str) : Bool := !s.isEmpty && s.all Char.isDigit

/-- Python `int(s)` on a digit string. -/
def digitsToNat (s : Str) : Nat :=
  s.foldl (fun acc c => acc * 10 + (c.toNat - '0'.toNat)) 0

/-- `analyze_track_format` (src/src/tools/track_normalizer.py:46-62): the
disc-track pattern `^(\d+)-(\d+)$` is checked first (a string matches it
exactly when splitting on '-' yields two nonempty digit runs), then the simple
pattern `^\d+$`. -/
def analyze_track_format (tracknumber : Option Str) : TrackFormat :=
  match tracknumber with
  | none => TrackFormat.missing
  | some s =>
    if s = [] then TrackFormat.missing
    else
      match s.splitOn '-' with
      | [a, b] =>
        if isDigits a && isDigits b then
          TrackFormat.discTrack (digitsToNat a) (digitsToNat b)
        else if isDigits s then TrackFormat.simple (digitsToNat s)
        else TrackFormat.invalid
      | _ =>
        if isDigits s then TrackFormat.simple (digitsToNat s)
        else TrackFormat.invalid

/-- The per-track recommendation computed by `analyze_album`
(src/src/tools/track_normalizer.py:105-126). -/
structure TrackFix where
  needs_fix : Bool
  recommended_tracknumber : Option Str
  recommended_discnumber : Option Str
deriving DecidableEq

/-- Per-track decision of `analyze_album`
(src/src/tools/track_normalizer.py:105-126): a disc-track value is split into
a zero-padded plain track number and the disc number; a simple value with a
missing (or empty) DISCNUMBER gets the default disc "1". -/
def recommend_fix (tracknumber discnumber : Option Str) : TrackFix :=
  match analyze_track_format tracknumber with
  | TrackFormat.discTrack d t =>
    { needs_fix := true
      recommended_tracknumber := some (format02 t)
      recommended_discnumber := some (natStr d) }
  | TrackFormat.simple _ =>
    if truthyS discnumber then
      { needs_fix := false, recommended_tracknumber := none
        recommended_discnumber := none }
    else
      { needs_fix := true, recommended_tracknumber := none
        recommended_discnumber := some "1".data }
  | _ =>
    { needs_fix := false, recommended_tracknumber := none
      recommended_discnumber := none }

/-- The tag writes of `fix_album_tracks`
(src/src/tools/track_normalizer.py:236-244) applied to one file's
(TRACKNUMBER, DISCNUMBER) pair: set TRACKNUMBER when a recommendation exists;
set DISCNUMBER when a recommendation exists and differs from the current
value. -/
def apply_fix (tracknumber discnumber : Option Str) : Option Str × Option Str :=
  let fix := recommend_fix tracknumber discnumber
  let tn := match fix.recommended_tracknumber with
    | some v => some v
    | none => tracknumber
  let dn := match fix.recommended_discnumber with
    | some v => if discnumber ≠ some v then some v else discnumber
    | none => discnumber
  (tn, dn)

/-- C7: every TRACKNUMBER matching the combined disc-track pattern is split by
the normalization into a zero-padded plain track number with the disc number
stored in the separate DISCNUMBER field; every plain track number with an
entirely absent disc-number field gets the default DISCNUMBER "1"; in
particular TRACKNUMBER "02-07" with no DISCNUMBER becomes TRACKNUMBER "07"
and DISCNUMBER "2". -/
theorem legacy_numbering_split (s : Str) (dn : Option Str) (d t : Nat) :
    (analyze_track_format (some s) = TrackFormat.discTrack d t →
      apply_fix (some s) dn = (some (format02 t), some (natStr d))) ∧
    (∀ t2, analyze_track_format (some s) = TrackFormat.simple t2 →
      apply_fix (some s) none = (some s, some "1".data)) ∧
    apply_fix (some "02-07".data) none = (some "07".data, some "2".data) := by
  refine ⟨?_, ?_, by decide⟩
  · intro h
    unfold apply_fix recommend_fix
    rw [h]
    by_cases hdn : dn = some (natStr d)
    · simp [hdn]
    · simp [hdn]
  · intro t2 h
    unfold apply_fix recommend_fix
    rw [h]
    simp [truthyS]

/-- C7 witness: the concrete legacy value "02-07" with no DISCNUMBER is
classified as disc-track (2, 7) and normalized to TRACKNUMBER "07",
DISCNUMBER "2". -/
theorem legacy_numbering_split_witness :
    (analyze_track_format (some "02-07".data) = TrackFormat.discTrack 2 7 →
      apply_fix (some "02-07".data) none =
        (some (format02 7), some (natStr 2))) ∧
    (∀ t2, analyze_track_format (some "02-07".data) = TrackFormat.simple t2 →
      apply_fix (some "02-07".data) none = (some "02-07".data, some "1".data)) ∧
    apply_fix (some "02-07".data) none = (some "07".data, some "2".data) :=
  legacy_numbering_split "02-07".data none 2 7

/-- A FLAC tag block as mutagen exposes it: each Vorbis field is absent or a
list of string values (`audio.get(KEY)` is `None` or a list). -/
structure Tags where
  album : Option (List Str)
  albumartist : Option (List Str)
  date : Option (List Str)
  title : Option (List Str)
  artist : Option (List Str)
  tracknumber : Option (List Str)
  discnumber : Option (List Str)
  totaldiscs : Option (List Str)
  musicbrainz_albumid : Option (List Str)
  musicbrainz_artistid : Option (List Str)
  musicbrainz_releasegroupid : Option (List Str)
  musicbrainz_trackid : Option (List Str)
  musicbrainz_releasetrackid : Option (List Str)
  label : Option (List Str)
  catalognumber : Option (List Str)
  barcode : Option (List Str)
  country : Option (List Str)
  media : Option (List Str)
  originaldate : Option (List Str)
  albumartistsort : Option (List Str)
  artistsort : Option (List Str)
  isrc : Option (List Str)
  encoder : Option (List Str)
  totaltracks : Option (List Str)
deriving DecidableEq

/-- One `tracks` entry of the enhanced metadata as read by
`apply_metadata_standard` (src/src/core/enrich_metadata.py:207-242). -/
structure TrackInfo where
  title : Option Str
  artist : Option Str
  disc_number : Option Nat
  track_number : Option Nat
  recording_id : Option Str
  track_id : Option Str
  artist_sort : Option Str
  isrc : Option Str
deriving DecidableEq

/-- The album-level enhanced metadata dictionary as read by
`apply_metadata_standard` (src/src/core/enrich_metadata.py:250-401). -/
structure EnhancedMeta where
  album : Option Str
  album_artist : Option Str
  date : Option Str
  mbid : Option Str
  album_artist_id : Option Str
  release_group_id : Option Str
  label : Option Str
  catalog_number : Option Str
  barcode : Option Str
  country : Option Str
  media : Option Str
  original_date : Option Str
  album_artist_sort : Option Str
  disc_count : Option Nat
  tracks : List TrackInfo
deriving DecidableEq

/-- One guarded field update of `apply_metadata_standard`: when the desired
value is truthy, compare the current value against the one-element list and
set it (flagging "updated") only on a real difference
(src/src/core/enrich_metadata.py:262-394, the pattern of every block). -/
def stepC (cond : Bool) (v : Str) (cur : Option (List Str)) :
    Option (List Str) × Bool :=
  if cond then
    if cur = some [v] then (cur, false) else (some [v], true)
  else (cur, false)

/-- The ENCODER block (src/src/core/enrich_metadata.py:385-387): set the fixed
encoder label only when the field is absent or empty. -/
def stepEnc (cur : Option (List Str)) : Option (List Str) × Bool :=
  match cur with
  | some (x :: xs) => (some (x :: xs), false)
  | _ => (some ["FLAC 1.3.x".data], true)

/-- A guarded update from an optional desired string (the pattern
`if meta.get(KEY): if audio.get(FIELD) != [v]: ...`). -/
def stepOptS (d : Option Str) (cur : Option (List Str)) :
    Option (List Str) × Bool :=
  stepC (truthyS d) (d.getD []) cur

/-- The TRACKNUMBER block (src/src/core/enrich_metadata.py:291-296): guarded
on truthy disc and track numbers, desired value `f"{disc:02d}-{track:02d}"`. -/
def stepTrackNum (d t : Option Nat) (cur : Option (List Str)) :
    Option (List Str) × Bool :=
  stepC (truthyN d && truthyN t)
    (format02 (d.getD 0) ++ '-' :: format02 (t.getD 0)) cur

/-- The DISCNUMBER block (src/src/core/enrich_metadata.py:299-302): guarded on
a truthy disc number, desired value `str(disc)`. -/
def stepDiscNum (d : Option Nat) (cur : Option (List Str)) :
    Option (List Str) × Bool :=
  stepC (truthyN d) (natStr (d.getD 0)) cur

/-- The TOTALDISCS block (src/src/core/enrich_metadata.py:304-308): runs only
when a track entry is present and the disc count is truthy. -/
def stepTotalDiscs (present : Bool) (d : Option Nat)
    (cur : Option (List Str)) : Option (List Str) × Bool :=
  stepC (present && truthyN d) (natStr (d.getD 0)) cur

/-- The TOTALTRACKS block (src/src/core/enrich_metadata.py:389-394): set
`str(len(tracks))` when the track list is nonempty. -/
def stepTotalTracks (n : Nat) (cur : Option (List Str)) :
    Option (List Str) × Bool :=
  stepC (decide (0 < n)) (natStr n) cur

/-- `apply_metadata_standard` (src/src/core/enrich_metadata.py:250-401) as a
pure function from the current tag block to the new tag block and the
`updated` report (the function's return value on the non-dry-run path; a save
happens exactly when the flag is true). -/
def apply_metadata_standard (dryRun : Bool) (em : EnhancedMeta)
    (ti : Option TrackInfo) (audio : Tags) : Tags × Bool :=
  if dryRun then (audio, true)
  else
    let r1 := stepOptS em.album audio.album
    let r2 := stepOptS em.album_artist audio.albumartist
    let r3 := stepOptS em.date audio.date
    let r4 := stepOptS (ti.bind TrackInfo.title) audio.title
    let r5 := stepOptS (ti.bind TrackInfo.artist) audio.artist
    let r6 := stepTrackNum (ti.bind TrackInfo.disc_number)
        (ti.bind TrackInfo.track_number) audio.tracknumber
    let r7 := stepDiscNum (ti.bind TrackInfo.disc_number) audio.discnumber
    let r8 := stepTotalDiscs ti.isSome em.disc_count audio.totaldiscs
    let r9 := stepOptS em.mbid audio.musicbrainz_albumid
    let r10 := stepOptS em.album_artist_id audio.musicbrainz_artistid
    let r11 := stepOptS em.release_group_id audio.musicbrainz_releasegroupid
    let r12 := stepOptS (ti.bind TrackInfo.recording_id) audio.musicbrainz_trackid
    let r13 := stepOptS (ti.bind TrackInfo.track_id) audio.musicbrainz_releasetrackid
    let r14 := stepOptS em.label audio.label
    let r15 := stepOptS em.catalog_number audio.catalognumber
    let r16 := stepOptS em.barcode audio.barcode
    let r17 := stepOptS em.country audio.country
    let r18 := stepOptS em.media audio.media
    let r19 := stepOptS em.original_date audio.originaldate
    let r20 := stepOptS em.album_artist_sort audio.albumartistsort
    let r21 := stepOptS (ti.bind TrackInfo.artist_sort) audio.artistsort
    let r22 := stepOptS (ti.bind TrackInfo.isrc) audio.isrc
    let r23 := stepEnc audio.encoder
    let r24 := stepTotalTracks em.tracks.length audio.totaltracks
    ({ album := r1.1, albumartist := r2.1, date := r3.1, title := r4.1
       artist := r5.1, tracknumber := r6.1, discnumber := r7.1
       totaldiscs := r8.1, musicbrainz_albumid := r9.1
       musicbrainz_artistid := r10.1, musicbrainz_releasegroupid := r11.1
       musicbrainz_trackid := r12.1, musicbrainz_releasetrackid := r13.1
       label := r14.1, catalognumber := r15.1, barcode := r16.1
       country := r17.1, media := r18.1, originaldate := r19.1
       albumartistsort := r20.1, artistsort := r21.1, isrc := r22.1
       encoder := r23.1, totaltracks := r24.1 },
     r1.2 || r2.2 || r3.2 || r4.2 || r5.2 || r6.2 || r7.2 || r8.2 || r9.2 ||
       r10.2 || r11.2 || r12.2 || r13.2 || r14.2 || r15.2 || r16.2 || r17.2 ||
       r18.2 || r19.2 || r20.2 || r21.2 || r22.2 || r23.2 || r24.2)

/-- A guarded field is already correct: whenever its condition is on, the
current value equals the desired one-element list. -/
def fieldUpToDate (b : Bool) (v : Str) (c : Option (List Str)) : Prop :=
  b = true → c = some [v]

/-- The file's tag fields already equal the desired canonical values: every
guarded field of `apply_metadata_standard` is up to date and the encoder field
is populated. -/
def TagsUpToDate (em : EnhancedMeta) (ti : Option TrackInfo) (audio : Tags) :
    Prop :=
  fieldUpToDate (truthyS em.album) (em.album.getD []) audio.album ∧
  fieldUpToDate (truthyS em.album_artist) (em.album_artist.getD []) audio.albumartist ∧
  fieldUpToDate (truthyS em.date) (em.date.getD []) audio.date ∧
  fieldUpToDate (truthyS (ti.bind TrackInfo.title))
    ((ti.bind TrackInfo.title).getD []) audio.title ∧
  fieldUpToDate (truthyS (ti.bind TrackInfo.artist))
    ((ti.bind TrackInfo.artist).getD []) audio.artist ∧
  fieldUpToDate
    (truthyN (ti.bind TrackInfo.disc_number) &&
      truthyN (ti.bind TrackInfo.track_number))
    (format02 ((ti.bind TrackInfo.disc_number).getD 0) ++
      '-' :: format02 ((ti.bind TrackInfo.track_number).getD 0))
    audio.tracknumber ∧
  fieldUpToDate (truthyN (ti.bind TrackInfo.disc_number))
    (natStr ((ti.bind TrackInfo.disc_number).getD 0)) audio.discnumber ∧
  fieldUpToDate (ti.isSome && truthyN em.disc_count)
    (natStr (em.disc_count.getD 0)) audio.totaldiscs ∧
  fieldUpToDate (truthyS em.mbid) (em.mbid.getD []) audio.musicbrainz_albumid ∧
  fieldUpToDate (truthyS em.album_artist_id)
    (em.album_artist_id.getD []) audio.musicbrainz_artistid ∧
  fieldUpToDate (truthyS em.release_group_id)
    (em.release_group_id.getD []) audio.musicbrainz_releasegroupid ∧
  fieldUpToDate (truthyS (ti.bind TrackInfo.recording_id))
    ((ti.bind TrackInfo.recording_id).getD []) audio.musicbrainz_trackid ∧
  fieldUpToDate (truthyS (ti.bind TrackInfo.track_id))
    ((ti.bind TrackInfo.track_id).getD []) audio.musicbrainz_releasetrackid ∧
  fieldUpToDate (truthyS em.label) (em.label.getD []) audio.label ∧
  fieldUpToDate (truthyS em.catalog_number)
    (em.catalog_number.getD []) audio.catalognumber ∧
  fieldUpToDate (truthyS em.barcode) (em.barcode.getD []) audio.barcode ∧
  fieldUpToDate (truthyS em.country) (em.country.getD []) audio.country ∧
  fieldUpToDate (truthyS em.media) (em.media.getD []) audio.media ∧
  fieldUpToDate (truthyS em.original_date)
    (em.original_date.getD []) audio.originaldate ∧
  fieldUpToDate (truthyS em.album_artist_sort)
    (em.album_artist_sort.getD []) audio.albumartistsort ∧
  fieldUpToDate (truthyS (ti.bind TrackInfo.artist_sort))
    ((ti.bind TrackInfo.artist_sort).getD []) audio.artistsort ∧
  fieldUpToDate (truthyS (ti.bind TrackInfo.isrc))
    ((ti.bind TrackInfo.isrc).getD []) audio.isrc ∧
  (audio.encoder ≠ none ∧ audio.encoder ≠ some []) ∧
  fieldUpToDate (decide (0 < em.tracks.length))
    (natStr em.tracks.length) audio.totaltracks

theorem stepC_noop (b : Bool) (v : Str) (c : Option (List Str))
    (h : fieldUpToDate b v c) : stepC b v c = (c, false) := by
  cases b
  · rfl
  · rw [stepC, if_pos rfl, if_pos (h rfl)]

theorem stepEnc_noop (c : Option (List Str)) (h1 : c ≠ none)
    (h2 : c ≠ some []) : stepEnc c = (c, false) := by
  match c with
  | none => exact absurd rfl h1
  | some [] => exact absurd rfl h2
  | some (x :: xs) => rfl

theorem stepC_idem (b : Bool) (v : Str) (c : Option (List Str)) :
    stepC b v (stepC b v c).1 = ((stepC b v c).1, false) := by
  cases b
  · rfl
  · by_cases h : c = some [v]
    · simp [stepC, h]
    · simp [stepC, h]

theorem stepEnc_idem (c : Option (List Str)) :
    stepEnc (stepEnc c).1 = ((stepEnc c).1, false) := by
  match c with
  | none => rfl
  | some [] => rfl
  | some (x :: xs) => rfl

theorem stepOptS_noop (d : Option Str) (c : Option (List Str))
    (h : fieldUpToDate (truthyS d) (d.getD []) c) : stepOptS d c = (c, false) :=
  stepC_noop _ _ _ h

theorem stepTrackNum_noop (d t : Option Nat) (c : Option (List Str))
    (h : fieldUpToDate (truthyN d && truthyN t)
      (format02 (d.getD 0) ++ '-' :: format02 (t.getD 0)) c) :
    stepTrackNum d t c = (c, false) :=
  stepC_noop _ _ _ h

theorem stepDiscNum_noop (d : Option Nat) (c : Option (List Str))
    (h : fieldUpToDate (truthyN d) (natStr (d.getD 0)) c) :
    stepDiscNum d c = (c, false) :=
  stepC_noop _ _ _ h

theorem stepTotalDiscs_noop (present : Bool) (d : Option Nat)
    (c : Option (List Str))
    (h : fieldUpToDate (present && truthyN d) (natStr (d.getD 0)) c) :
    stepTotalDiscs present d c = (c, false) :=
  stepC_noop _ _ _ h

theorem stepTotalTracks_noop (n : Nat) (c : Option (List Str))
    (h : fieldUpToDate (decide (0 < n)) (natStr n) c) :
    stepTotalTracks n c = (c, false) :=
  stepC_noop _ _ _ h

theorem stepOptS_idem (d : Option Str) (c : Option (List Str)) :
    stepOptS d (stepOptS d c).1 = ((stepOptS d c).1, false) :=
  stepC_idem _ _ _

theorem stepTrackNum_idem (d t : Option Nat) (c : Option (List Str)) :
    stepTrackNum d t (stepTrackNum d t c).1 = ((stepTrackNum d t c).1, false) :=
  stepC_idem _ _ _

theorem stepDiscNum_idem (d : Option Nat) (c : Option (List Str)) :
    stepDiscNum d (stepDiscNum d c).1 = ((stepDiscNum d c).1, false) :=
  stepC_idem _ _ _

theorem stepTotalDiscs_idem (present : Bool) (d : Option Nat)
    (c : Option (List Str)) :
    stepTotalDiscs present d (stepTotalDiscs present d c).1
      = ((stepTotalDiscs present d c).1, false) :=
  stepC_idem _ _ _

theorem stepTotalTracks_idem (n : Nat) (c : Option (List Str)) :
    stepTotalTracks n (stepTotalTracks n c).1 = ((stepTotalTracks n c).1, false) :=
  stepC_idem _ _ _

/-- C3: tag reconciliation is idempotent: on a file whose tag fields already
equal the desired canonical values the application mutates zero fields and
reports the file as not updated, and a second application immediately after a
first one changes nothing and reports no update. -/
theorem tag_reconciliation_idempotent (em : EnhancedMeta)
    (ti : Option TrackInfo) (audio : Tags) :
    (TagsUpToDate em ti audio →
      apply_metadata_standard false em ti audio = (audio, false)) ∧
    apply_metadata_standard false em ti
        (apply_metadata_standard false em ti audio).1
      = ((apply_metadata_standard false em ti audio).1, false) := by
  constructor
  · intro h
    obtain ⟨h1, h2, h3, h4, h5, h6, h7, h8, h9, h10, h11, h12, h13, h14, h15,
      h16, h17, h18, h19, h20, h21, h22, h23, h24⟩ := h
    unfold apply_metadata_standard
    rw [if_neg Bool.false_ne_true]
    simp only [stepOptS_noop _ _ h1, stepOptS_noop _ _ h2, stepOptS_noop _ _ h3,
      stepOptS_noop _ _ h4, stepOptS_noop _ _ h5, stepTrackNum_noop _ _ _ h6,
      stepDiscNum_noop _ _ h7, stepTotalDiscs_noop _ _ _ h8,
      stepOptS_noop _ _ h9, stepOptS_noop _ _ h10, stepOptS_noop _ _ h11,
      stepOptS_noop _ _ h12, stepOptS_noop _ _ h13, stepOptS_noop _ _ h14,
      stepOptS_noop _ _ h15, stepOptS_noop _ _ h16, stepOptS_noop _ _ h17,
      stepOptS_noop _ _ h18, stepOptS_noop _ _ h19, stepOptS_noop _ _ h20,
      stepOptS_noop _ _ h21, stepOptS_noop _ _ h22,
      stepEnc_noop _ h23.1 h23.2, stepTotalTracks_noop _ _ h24]
    rfl
  · unfold apply_metadata_standard
    rw [if_neg Bool.false_ne_true, if_neg Bool.false_ne_true]
    simp only [stepOptS_idem, stepTrackNum_idem, stepDiscNum_idem,
      stepTotalDiscs_idem, stepTotalTracks_idem, stepEnc_idem]
    rfl

/-- Enhanced metadata with no truthy album-level field and no tracks. -/
def emptyMeta : EnhancedMeta :=
  { album := none, album_artist := none, date := none, mbid := none
    album_artist_id := none, release_group_id := none, label := none
    catalog_number := none, barcode := none, country := none, media := none
    original_date := none, album_artist_sort := none, disc_count := none
    tracks := [] }

/-- A tag block with every field absent except a populated encoder label. -/
def encodedTags : Tags :=
  { album := none, albumartist := none, date := none, title := none
    artist := none, tracknumber := none, discnumber := none
    totaldiscs := none, musicbrainz_albumid := none
    musicbrainz_artistid := none, musicbrainz_releasegroupid := none
    musicbrainz_trackid := none, musicbrainz_releasetrackid := none
    label := none, catalognumber := none, barcode := none, country := none
    media := none, originaldate := none, albumartistsort := none
    artistsort := none, isrc := none
    encoder := some ["FLAC 1.3.x".data], totaltracks := none }

/-- C3 witness: an already-correct file (no canonical field demanded, encoder
populated) is reported as not updated with zero mutations, and the second
application after a first one is a no-op. -/
theorem tag_reconciliation_idempotent_witness :
    (TagsUpToDate emptyMeta none encodedTags →
      apply_metadata_standard false emptyMeta none encodedTags =
        (encodedTags, false)) ∧
    apply_metadata_standard false emptyMeta none
        (apply_metadata_standard false emptyMeta none encodedTags).1
      = ((apply_metadata_standard false emptyMeta none encodedTags).1, false) :=
  tag_reconciliation_idempotent emptyMeta none encodedTags

/-- The tag block with every field absent. -/
def blankTags : Tags :=
  { album := none, albumartist := none, date := none, title := none
    artist := none, tracknumber := none, discnumber := none
    totaldiscs := none, musicbrainz_albumid := none
    musicbrainz_artistid := none, musicbrainz_releasegroupid := none
    musicbrainz_trackid := none, musicbrainz_releasetrackid := none
    label := none, catalognumber := none, barcode := none, country := none
    media := none, originaldate := none, albumartistsort := none
    artistsort := none, isrc := none, encoder := none, totaltracks := none }

/-- Track entry for disc 1, track 5. -/
def trackOneFive : TrackInfo :=
  { title := none, artist := none, disc_number := some 1
    track_number := some 5, recording_id := none, track_id := none
    artist_sort := none, isrc := none }

/-- C2: the tag-reconciliation step of `apply_metadata_standard` writes the
combined "disc-track" encoding into TRACKNUMBER: for disc 1, track 5 it
writes TRACKNUMBER = "01-05" (alongside DISCNUMBER = "1"), the very value the
track normalizer classifies as the legacy disc-track format needing a fix —
contradicting the claim that reconciliation never writes the combined form. -/
theorem reconciliation_writes_combined_tracknumber :
    ((apply_metadata_standard false emptyMeta (some trackOneFive) blankTags).1).tracknumber
      = some ["01-05".data] ∧
    ((apply_metadata_standard false emptyMeta (some trackOneFive) blankTags).1).discnumber
      = some ["1".data] ∧
    analyze_track_format (some "01-05".data) = TrackFormat.discTrack 1 5 ∧
    (recommend_fix (some "01-05".data) (some "1".data)).needs_fix = true := by
  refine ⟨by decide, by decide, by decide, by decide⟩

/-- The micro-operations a sidecar writer performs on the filesystem:
`open(path, 'w')` truncates the file in place, `json.dump` then writes the
document, and a write-then-replace scheme would end with a rename. -/
inductive FsOp where
  | openTrunc (p : FsPath)
  | writeData (p : FsPath) (data : Str)
  | renameOp (src dst : FsPath)
deriving DecidableEq

/-- File contents: a total map from paths to the current document (none =
the file does not exist). -/
abbrev FileSys := FsPath → Option Str

/-- Effect of one micro-operation. -/
def applyOp (st : FileSys) (op : FsOp) : FileSys :=
  match op with
  | FsOp.openTrunc p => fun q => if q = p then some [] else st q
  | FsOp.writeData p d => fun q => if q = p then some ((st p).getD [] ++ d) else st q
  | FsOp.renameOp src dst =>
    fun q => if q = dst then st src else if q = src then none else st q

/-- Run a sequence of micro-operations; every prefix is a reachable
intermediate (crash) state. -/
def runOps (st : FileSys) (ops : List FsOp) : FileSys :=
  ops.foldl applyOp st

/-- The sidecar write of `rip_cd` (src/src/core/rip_cd.py:1192-1193):
`open(metadata_file, 'w')` truncates rip_info.json in place, then the
document is dumped into it. -/
def rip_cd_sidecar_ops (sidecar : FsPath) (doc : Str) : List FsOp :=
  [FsOp.openTrunc sidecar, FsOp.writeData sidecar doc]

/-- The sidecar update of `update_rip_info`
(src/src/tools/metadata_corrector.py:247-256): write the current document to
the .backup path, then truncate rip_info.json itself in place and write the
new document. -/
def update_rip_info_ops (sidecar backupPath : FsPath) (oldDoc newDoc : Str) :
    List FsOp :=
  [FsOp.openTrunc backupPath, FsOp.writeData backupPath oldDoc,
   FsOp.openTrunc sidecar, FsOp.writeData sidecar newDoc]

/-- A write-then-replace (atomic) write to `target`: the document goes to a
separate temporary file which is then renamed over the target. -/
def WriteThenReplace (ops : List FsOp) (target : FsPath) : Prop :=
  ∃ tmp doc, tmp ≠ target ∧
    ops = [FsOp.openTrunc tmp, FsOp.writeData tmp doc, FsOp.renameOp tmp target]

/-- What actually holds of the sidecar writes starting from a state where the
sidecar holds `oldDoc`: the rip path truncates the sidecar in place (so the
reachable intermediate state after the truncate holds the empty partial
document) before writing the new document; the corrector writes a full backup
of the old document before truncating the sidecar in place; and neither
sequence has the write-then-replace shape. -/
def SidecarWriteFacts (sidecar backup : FsPath) (oldDoc newDoc : Str)
    (init : FileSys) : Prop :=
  (runOps init ((rip_cd_sidecar_ops sidecar newDoc).take 1) sidecar = some [] ∧
    runOps init (rip_cd_sidecar_ops sidecar newDoc) sidecar = some newDoc) ∧
  (runOps init ((update_rip_info_ops sidecar backup oldDoc newDoc).take 2) backup
      = some oldDoc ∧
    runOps init ((update_rip_info_ops sidecar backup oldDoc newDoc).take 2) sidecar
      = some oldDoc ∧
    runOps init ((update_rip_info_ops sidecar backup oldDoc newDoc).take 3) sidecar
      = some [] ∧
    runOps init (update_rip_info_ops sidecar backup oldDoc newDoc) sidecar
      = some newDoc ∧
    runOps init (update_rip_info_ops sidecar backup oldDoc newDoc) backup
      = some oldDoc) ∧
  ¬ WriteThenReplace (rip_cd_sidecar_ops sidecar newDoc) sidecar ∧
  ¬ WriteThenReplace (update_rip_info_ops sidecar backup oldDoc newDoc) sidecar

/-- C4 (amended): sidecar writes are not write-then-replace: both writers
truncate rip_info.json in place and rewrite it, so the intermediate state
between truncate and write holds an empty partial document at the sidecar
path; `update_rip_info` does, however, write a complete backup of the prior
document to the .backup path before touching the sidecar, and both sequences
end with the sidecar holding the full new document. -/
theorem sidecar_write_in_place (sidecar backup : FsPath) (oldDoc newDoc : Str)
    (init : FileSys) (hb : backup ≠ sidecar)
    (hinit : init sidecar = some oldDoc) :
    SidecarWriteFacts sidecar backup oldDoc newDoc init := by
  have hbs : sidecar ≠ backup := Ne.symm hb
  refine ⟨⟨?_, ?_⟩, ⟨?_, ?_, ?_, ?_, ?_⟩, ?_, ?_⟩
  · simp [rip_cd_sidecar_ops, runOps, applyOp]
  · simp [rip_cd_sidecar_ops, runOps, applyOp]
  · simp [update_rip_info_ops, runOps, applyOp]
  · simp [update_rip_info_ops, runOps, applyOp, hbs, hinit]
  · simp [update_rip_info_ops, runOps, applyOp]
  · simp [update_rip_info_ops, runOps, applyOp]
  · simp [update_rip_info_ops, runOps, applyOp, hb, hbs]
  · rintro ⟨tmp, doc, -, h⟩
    simp [rip_cd_sidecar_ops] at h
  · rintro ⟨tmp, doc, -, h⟩
    simp [update_rip_info_ops] at h

/-- The initial filesystem of the concrete sidecar scenario: rip_info.json
holds the old document. -/
def initialSidecarFs : FileSys :=
  fun q => if q = ["rip_info.json".data] then some "old".data else none

/-- C4 witness: the amended facts at the concrete paths rip_info.json and
rip_info.json.backup with documents "old" and "new". -/
theorem sidecar_write_in_place_witness :
    SidecarWriteFacts ["rip_info.json".data] ["rip_info.json.backup".data]
      "old".data "new".data initialSidecarFs :=
  sidecar_write_in_place ["rip_info.json".data] ["rip_info.json.backup".data]
    "old".data "new".data initialSidecarFs (by decide) (by decide)

/-- C4 counterexample: the sidecar write of `rip_cd` is not of the
write-then-replace shape, and the reachable intermediate state right after the
in-place truncate holds the empty document at the sidecar path — a partially
written document that is neither the old nor the new content. -/
theorem sidecar_write_counterexample :
    ¬ WriteThenReplace
        (rip_cd_sidecar_ops ["rip_info.json".data] "new".data)
        ["rip_info.json".data] ∧
    runOps initialSidecarFs
        ((rip_cd_sidecar_ops ["rip_info.json".data] "new".data).take 1)
        ["rip_info.json".data] = some [] ∧
    some ([] : Str) ≠ some "old".data ∧ some ([] : Str) ≠ some "new".data := by
  refine ⟨?_, by decide, by decide, by decide⟩
  rintro ⟨tmp, doc, -, h⟩
  simp [rip_cd_sidecar_ops] at h

end CDRipper
